import Mathlib

/-!
Verification of the gatereader driver (fmfi-svt-deadlock/libreader.py).

This file is a shallow embedding of `gatereader/reader.py` into Lean.
Pure computations (checksums, frame encoding and decoding) become Lean
functions on `List Nat` byte strings; the stateful serial-port interaction
becomes explicit state passing over a `PortState` record that scripts the
responses of the transport (the external collaborator) and records every
write the driver performs.

Python exceptions are modelled by the `PyErr` error type, threaded through
results of type `Except PyErr α × PortState`: an exception carries no
transport state in Python either, but reads already consumed and bytes
already written stay consumed and written, so the post-state is always
returned next to the `Except` result.

Name mapping to the error taxonomy used by the documentation of the
driver: `valueError` is the Python `ValueError` (called ValidationError in
the docs), `readerError` is `ReaderError` (ReaderFault), `resetException`
is `ResetException` (DeviceResetDetected), `corruptedPacket` is
`CorruptedPacketException` (CorruptedPacket), `serialTimeout` is
`serial.SerialTimeoutException`, `structError` is `struct.error`, and
`indexError` is the builtin `IndexError`.
-/

/-- Byte strings are lists of naturals; a well-formed byte is below 256. -/
abbrev Bytes := List Nat

/-- The closed enumeration of packet identifiers, from `PacketId` in
`reader.py` lines 6-21. -/
inductive PacketId where
  | INVALID_PACKET
  | ANSWER_TO_RESET
  | CONTINUE_BOOT
  | FIRMWARE_UPGRADE
  | FW_UPGRADE_READY
  | FW_WRITE
  | FW_WRITE_ACK
  | FW_UPDATE_FINISH
  | GET_STATUS
  | SET_LED
  | ACK
  | BEEP
  | RFID_SEND
  | RFID_SEND_COMPLETE
  | RX_ERROR
deriving DecidableEq, Repr

/-- The byte value of each packet identifier (the `Enum` values in
`reader.py` lines 6-21). -/
def PacketId.value : PacketId → Nat
  | .INVALID_PACKET => 0x00
  | .ANSWER_TO_RESET => 0x01
  | .CONTINUE_BOOT => 0x02
  | .FIRMWARE_UPGRADE => 0x03
  | .FW_UPGRADE_READY => 0x04
  | .FW_WRITE => 0x05
  | .FW_WRITE_ACK => 0x06
  | .FW_UPDATE_FINISH => 0x07
  | .GET_STATUS => 0x08
  | .SET_LED => 0x09
  | .ACK => 0x0A
  | .BEEP => 0x0B
  | .RFID_SEND => 0x0C
  | .RFID_SEND_COMPLETE => 0x0D
  | .RX_ERROR => 0xFF

/-- `ResponseLength.RESPONSE_ATR` from `reader.py` line 24. -/
def RESPONSE_ATR : Nat := 5

/-- `ResponseLength.TRANSMIT_OVERHEAD` from `reader.py` line 25. -/
def TRANSMIT_OVERHEAD : Nat := 3

/-- `Reader.MAX_BEEP_LENGTH` from `reader.py` line 50. -/
def MAX_BEEP_LENGTH : Nat := 8

/-- `Reader.MAX_RFID_PAYLOAD` from `reader.py` line 51. -/
def MAX_RFID_PAYLOAD : Nat := 128

/-- The two-byte packet header `PacketHead` (`reader.py` lines 53-55):
a `uint8` id and a `uint8` length field. -/
structure PacketHead where
  id : Nat
  length : Nat
deriving DecidableEq, Repr

/-- The Python exceptions that can cross function boundaries in
`reader.py`; see the name mapping in the file docstring. -/
inductive PyErr where
  | corruptedPacket
  | readerError
  | resetException
  | valueError
  | serialTimeout
  | structError
  | indexError
deriving DecidableEq, Repr

/-- One scripted outcome of a `port.read` call: either the read raises
`serial.SerialTimeoutException`, or it returns a byte string (possibly
shorter than requested, which is how pyserial reports an expiring
timeout). -/
inductive ReadRes where
  | timeout
  | chunk (bs : Bytes)
deriving DecidableEq, Repr

/-- The transport model: `inWaiting` is what `port.inWaiting()` reports
before the transaction, `reads` scripts the successive results of
`port.read`, and `writes` records, in order, the byte string of every
`port.write` call the driver performed. -/
structure PortState where
  inWaiting : Nat
  reads : List ReadRes
  writes : List Bytes
deriving DecidableEq, Repr

/-- One `port.read` call: consumes the next scripted read result. The
requested byte count does not appear because the script already fixes
what the transport returns; an exhausted script returns the empty string
(what pyserial returns when nothing arrives before the timeout). -/
def portRead (s : PortState) : Except PyErr Bytes × PortState :=
  match s.reads with
  | [] => (.ok [], s)
  | .timeout :: rest => (.error .serialTimeout, { s with reads := rest })
  | .chunk bs :: rest => (.ok bs, { s with reads := rest })

/-- One `port.write` call: appends the written byte string to the trace. -/
def portWrite (bs : Bytes) (s : PortState) : PortState :=
  { s with writes := s.writes ++ [bs] }

/-- The checksum computed by `_transmit_packet` (`reader.py` lines 62-65):
the running XOR of the id, the payload length, and every payload byte. -/
def packet_checksum (pid : Nat) (payload : Bytes) : Nat :=
  payload.foldl Nat.xor (Nat.xor pid payload.length)

/-- The frame written by `_transmit_packet` (`reader.py` line 66):
`[id, len(payload)] + payload + [checksum]`. -/
def encode_frame (pid : Nat) (payload : Bytes) : Bytes :=
  pid :: payload.length :: (payload ++ [packet_checksum pid payload])

/-- `Reader._transmit_packet` (`reader.py` lines 61-67). The
`bytes([packet_id.value, len(payload)])` construction raises `ValueError`
when the payload length does not fit in one byte; otherwise the frame is
written to the port. -/
def transmit_packet (pid : PacketId) (payload : Bytes) (s : PortState) :
    Except PyErr PortState :=
  if payload.length ≤ 255 then .ok (portWrite (encode_frame pid.value payload) s)
  else .error .valueError

/-- `Reader._checksum_ok` (`reader.py` lines 69-74): recompute the running
XOR over id, length field and payload and compare with the trailing byte. -/
def checksum_ok (head : PacketHead) (payload : Bytes) (checksum : Nat) : Bool :=
  payload.foldl Nat.xor (Nat.xor head.id head.length) == checksum

/-- Modelled from the spec: `PacketHead.unpack_from` of the missing
`gatereader/utils/structparse.py` module (`mystruct` over two `uint8`
fields). Per the spec it parses the first two bytes as (id, length) and
hands back the remaining bytes; with fewer than two bytes available,
`struct.unpack_from` raises `struct.error`. -/
def unpack_from (raw : Bytes) : Except PyErr (PacketHead × Bytes) :=
  match raw with
  | i :: l :: rest => .ok (⟨i, l⟩, rest)
  | _ => .error .structError

/-- The pure part of `Reader._expect_packet` (`reader.py` lines 76-86),
applied to the byte string the port returned: `struct.error` from
unpacking is converted to `CorruptedPacketException`; then
`payload, checksum = payload[:-1], payload[-1]` raises `IndexError` on an
empty remainder; finally a checksum mismatch raises
`CorruptedPacketException`. -/
def expect_packet_pure (raw : Bytes) : Except PyErr (PacketHead × Bytes) :=
  match unpack_from raw with
  | .error _ => .error .corruptedPacket
  | .ok (p, tail) =>
    match tail.getLast? with
    | none => .error .indexError
    | some checksum =>
      let payload := tail.dropLast
      if checksum_ok p payload checksum then .ok (p, payload)
      else .error .corruptedPacket

/-- `Reader._expect_packet` (`reader.py` lines 76-86): read up to `n`
bytes from the port, then decode. The requested count `n` only sizes the
read, whose outcome the transport script already fixes; a read timeout
propagates as `serial.SerialTimeoutException`. -/
def expect_packet (_n : Nat) (s : PortState) :
    Except PyErr (PacketHead × Bytes) × PortState :=
  match portRead s with
  | (.error e, s1) => (.error e, s1)
  | (.ok raw, s1) => (expect_packet_pure raw, s1)

/-- The comparisons `p.id == PacketId.RX_ERROR` at `reader.py` lines 102
and 113 compare an `int` (unpacked by `struct`) with a member of a plain
`Enum` (not an `IntEnum`). In Python such a comparison is always `False`:
`int.__eq__` returns `NotImplemented` on an `Enum` member and the default
identity comparison of `Enum` never identifies it with an `int`. Note
that the driver itself writes `head.id != PacketId.ACK.value` (with
`.value`) at lines 150, 166 and 178 when it intends a value comparison. -/
def pyIntEqEnum (_n : Nat) (_e : PacketId) : Bool :=
  false

/-- The exception tuple `(CorruptedPacketException, SerialTimeoutException)`
caught at `reader.py` lines 107 and 120-121. -/
def isCaught : PyErr → Bool
  | .corruptedPacket => true
  | .serialTimeout => true
  | _ => false

/-- Outcome of one iteration of the inner recovery loop
(`reader.py` lines 109-123). -/
inductive InnerRes where
  | ret (p : PacketHead) (pl : Bytes)
  | err (e : PyErr)
  | fall
deriving DecidableEq, Repr

/-- One iteration of the inner recovery loop (`reader.py` lines 110-123):
transmit an RX_ERROR signal with empty payload, then try to decode a
response. A decodable response with RX_ERROR id would raise `ReaderError`
(line 117); any other decodable response is returned; a caught decode
failure falls through to the next inner iteration. -/
def inner_iter (n : Nat) (s : PortState) : InnerRes × PortState :=
  match transmit_packet PacketId.RX_ERROR [] s with
  | .error e => (.err e, s)
  | .ok s1 =>
    match expect_packet n s1 with
    | (.ok (p, pl), s2) =>
      if pyIntEqEnum p.id PacketId.RX_ERROR then (.err .readerError, s2)
      else (.ret p pl, s2)
    | (.error e, s2) =>
      if isCaught e then (.fall, s2) else (.err e, s2)

/-- The inner recovery loop, `for j in range(0, 2)` (`reader.py` line 109). -/
def inner_loop (n : Nat) (s : PortState) : InnerRes × PortState :=
  match inner_iter n s with
  | (.fall, s1) => inner_iter n s1
  | r => r

/-- Outcome of one iteration of the outer loop: a returned packet, an
uncaught exception, or a fall-through to the next outer iteration. The
fall-through carries the current value of the local `payload` variable,
which line 101 rebinds to the response payload when a decodable RX_ERROR
response takes the `pass` branch at line 104. -/
inductive OuterRes where
  | ret (p : PacketHead) (pl : Bytes)
  | err (e : PyErr)
  | next (payload : Bytes)
deriving DecidableEq, Repr

/-- One iteration of the outer loop of `_transceive_with_retry`
(`reader.py` lines 99-123): transmit the command packet, try to decode the
response; on a caught decode failure run the inner recovery loop, and if
that loop exhausts both iterations fall through to the next outer
iteration. -/
def outer_iter (pid : PacketId) (payload : Bytes) (n : Nat) (s : PortState) :
    OuterRes × PortState :=
  match transmit_packet pid payload s with
  | .error e => (.err e, s)
  | .ok s1 =>
    match expect_packet n s1 with
    | (.ok (p, pl), s2) =>
      if pyIntEqEnum p.id PacketId.RX_ERROR then (.next pl, s2)
      else (.ret p pl, s2)
    | (.error e, s2) =>
      if isCaught e then
        match inner_loop n s2 with
        | (.ret p pl, s3) => (.ret p pl, s3)
        | (.err e2, s3) => (.err e2, s3)
        | (.fall, s3) => (.next payload, s3)
      else (.err e, s2)

/-- `Reader._check_atr` (`reader.py` lines 129-141): when exactly 5 bytes
are buffered, drain them with `_expect_packet(5)`; only
`SerialTimeoutException` is caught (and converted to `ReaderError`), so a
`CorruptedPacketException` or `IndexError` from the drain propagates; a
successful drain raises `ResetException`. -/
def check_atr (s : PortState) : Except PyErr Unit × PortState :=
  if s.inWaiting == 5 then
    match expect_packet 5 s with
    | (.error .serialTimeout, s1) => (.error .readerError, s1)
    | (.error e, s1) => (.error e, s1)
    | (.ok _, s1) => (.error .resetException, s1)
  else (.ok (), s)

/-- `Reader._transceive_with_retry` (`reader.py` lines 88-127): check for
a pending reset notification, then run the outer loop `for i in
range(0, 2)`; when both outer iterations fall through, raise `ReaderError`
(line 127). The response length argument only sizes the port reads, which
the transport script already fixes. -/
def transceive_with_retry (pid : PacketId) (payload : Bytes) (n : Nat)
    (s : PortState) : Except PyErr (PacketHead × Bytes) × PortState :=
  match check_atr s with
  | (.error e, s0) => (.error e, s0)
  | (.ok _, s0) =>
    match outer_iter pid payload n s0 with
    | (.ret p pl, s1) => (.ok (p, pl), s1)
    | (.err e, s1) => (.error e, s1)
    | (.next payload1, s1) =>
      match outer_iter pid payload1 n s1 with
      | (.ret p pl, s2) => (.ok (p, pl), s2)
      | (.err e, s2) => (.error e, s2)
      | (.next _, s2) => (.error .readerError, s2)

/-- `Reader.set_leds` (`reader.py` lines 143-152): `bytes([leds])` raises
`ValueError` unless the mask fits in one byte; a response whose id is not
`PacketId.ACK.value` raises `ReaderError`. -/
def set_leds (leds : Nat) (s : PortState) : Except PyErr Unit × PortState :=
  if leds ≤ 255 then
    match transceive_with_retry PacketId.SET_LED [leds] RESPONSE_ATR s with
    | (.error e, s1) => (.error e, s1)
    | (.ok (head, _), s1) =>
      if head.id != PacketId.ACK.value then (.error .readerError, s1)
      else (.ok (), s1)
  else (.error .valueError, s)

/-- Modelled from the spec: the `STRUCT_FORMAT` endianness prefix of the
missing `gatereader/utils/structparse.py` module; each tone is packed by
`struct.pack(STRUCT_FORMAT + 'HH', tone[0], tone[1])` (`reader.py` line
159) as two consistent 16-bit little-endian fields, and `struct.pack`
raises `struct.error` when a value does not fit in 16 bits. -/
def pack_tone (tone : Nat × Nat) : Except PyErr Bytes :=
  if tone.1 < 65536 ∧ tone.2 < 65536 then
    .ok [tone.1 % 256, tone.1 / 256, tone.2 % 256, tone.2 / 256]
  else .error .structError

/-- The payload accumulation loop of `beep` (`reader.py` lines 157-159). -/
def build_beep_payload : List (Nat × Nat) → Except PyErr Bytes
  | [] => .ok []
  | tone :: rest =>
    match pack_tone tone with
    | .error e => .error e
    | .ok bs =>
      match build_beep_payload rest with
      | .error e => .error e
      | .ok tail => .ok (bs ++ tail)

/-- `Reader.beep` (`reader.py` lines 154-168): validate the tone count,
build the payload with the trailing repeat byte, transceive; a response
whose id is not `PacketId.ACK.value` raises `CorruptedPacketException`
(line 168). -/
def beep (tones : List (Nat × Nat)) (rep : Bool) (s : PortState) :
    Except PyErr Unit × PortState :=
  if tones.length > MAX_BEEP_LENGTH then (.error .valueError, s)
  else
    match build_beep_payload tones with
    | .error e => (.error e, s)
    | .ok pl =>
      match transceive_with_retry PacketId.BEEP (pl ++ [if rep then 1 else 0])
          RESPONSE_ATR s with
      | (.error e, s1) => (.error e, s1)
      | (.ok (head, _), s1) =>
        if head.id != PacketId.ACK.value then (.error .corruptedPacket, s1)
        else (.ok (), s1)

/-- `Reader.RFID_send` (`reader.py` lines 170-180): validate the payload
length, transceive, and return the response payload; a response whose id
is not `PacketId.RFID_SEND_COMPLETE.value` raises `ReaderError`. -/
def RFID_send (payload : Bytes) (s : PortState) : Except PyErr Bytes × PortState :=
  if payload.length > MAX_RFID_PAYLOAD then (.error .valueError, s)
  else
    match transceive_with_retry PacketId.RFID_SEND payload
        (payload.length + TRANSMIT_OVERHEAD) s with
    | (.error e, s1) => (.error e, s1)
    | (.ok (head, pl), s1) =>
      if head.id != PacketId.RFID_SEND_COMPLETE.value then (.error .readerError, s1)
      else (.ok pl, s1)


/-- A scripted read outcome on which `_expect_packet` fails with one of
the two exceptions caught by the retry loops: a timeout, or a byte string
that decodes to `CorruptedPacketException`. -/
def BadRead (r : ReadRes) : Prop :=
  r = .timeout ∨
    ∃ bs, r = .chunk bs ∧ expect_packet_pure bs = .error .corruptedPacket

/-! ## Helper lemmas about XOR folds and frame decoding -/

/-- Associativity of `Nat.xor`, stated in applied form. -/
theorem nxor_assoc (a b c : Nat) :
    Nat.xor (Nat.xor a b) c = Nat.xor a (Nat.xor b c) :=
  Nat.xor_assoc a b c

/-- Commutativity of `Nat.xor`, stated in applied form. -/
theorem nxor_comm (a b : Nat) : Nat.xor a b = Nat.xor b a :=
  Nat.xor_comm a b

/-- Self-inverse law of `Nat.xor`, stated in applied form. -/
theorem nxor_self (a : Nat) : Nat.xor a a = 0 :=
  Nat.xor_self a

/-- Left identity of `Nat.xor`, stated in applied form. -/
theorem nxor_zero (a : Nat) : Nat.xor 0 a = a :=
  Nat.zero_xor a

/-- Pulling an XOR term out of the initial accumulator of an XOR fold. -/
theorem foldl_xor_init (l : Bytes) (a m : Nat) :
    List.foldl Nat.xor (Nat.xor a m) l = Nat.xor (List.foldl Nat.xor a l) m := by
  induction l generalizing a with
  | nil => rfl
  | cons x t ih =>
    simp only [List.foldl_cons]
    have h : Nat.xor (Nat.xor a m) x = Nat.xor (Nat.xor a x) m := by
      rw [nxor_assoc, nxor_comm m x, ← nxor_assoc]
    rw [h, ih]

/-- An XOR fold over a list with one trailing element. -/
theorem foldl_xor_concat (l : Bytes) (a c : Nat) :
    List.foldl Nat.xor a (l ++ [c]) = Nat.xor (List.foldl Nat.xor a l) c := by
  induction l generalizing a with
  | nil => rfl
  | cons x t ih => exact ih (Nat.xor a x)

/-- XOR-ing a mask into any one element of a list XORs the mask into the
XOR fold of the list. -/
theorem foldl_xor_set (l : Bytes) (i : Nat) (hi : i < l.length) (a m : Nat) :
    List.foldl Nat.xor a (l.set i (Nat.xor (l.getD i 0) m)) =
      Nat.xor (List.foldl Nat.xor a l) m := by
  induction l generalizing i a with
  | nil => simp at hi
  | cons x t ih =>
    cases i with
    | zero =>
      simp only [List.getD_cons_zero, List.set_cons_zero, List.foldl_cons]
      have h : Nat.xor a (Nat.xor x m) = Nat.xor (Nat.xor a x) m := by
        rw [nxor_assoc]
      rw [h, foldl_xor_init]
    | succ j =>
      simp only [List.getD_cons_succ, List.set_cons_succ, List.foldl_cons]
      exact ih j (by simpa using hi) (Nat.xor a x)

/-- Decoding a frame presented as header, payload and trailing checksum
byte: the outcome depends only on the checksum test. -/
theorem decode_concat (i l : Nat) (payload : Bytes) (c : Nat) :
    expect_packet_pure (i :: l :: (payload ++ [c])) =
      if checksum_ok ⟨i, l⟩ payload c then .ok (⟨i, l⟩, payload)
      else .error .corruptedPacket := by
  have hu : unpack_from (i :: l :: (payload ++ [c])) =
      .ok (⟨i, l⟩, payload ++ [c]) := rfl
  simp only [expect_packet_pure, hu, List.getLast?_concat, List.dropLast_concat]

/-- The XOR of all bytes of an encoded frame is zero. -/
theorem encode_frame_xor_zero (pid : Nat) (payload : Bytes) :
    List.foldl Nat.xor 0 (encode_frame pid payload) = 0 := by
  show List.foldl Nat.xor 0
    (pid :: payload.length :: (payload ++ [packet_checksum pid payload])) = 0
  simp only [List.foldl_cons]
  rw [foldl_xor_concat, nxor_zero, packet_checksum]
  exact nxor_self _

/-- A byte string of frame length whose total XOR is not zero fails the
checksum test and decodes to `CorruptedPacketException`. -/
theorem decode_of_xor_ne_zero (raw : Bytes) (hlen : 3 ≤ raw.length)
    (hx : List.foldl Nat.xor 0 raw ≠ 0) :
    expect_packet_pure raw = .error .corruptedPacket := by
  rcases raw with _ | ⟨a, _ | ⟨b, rest⟩⟩
  · simp at hlen
  · simp at hlen
  · have hne : rest ≠ [] := by
      intro h
      rw [h] at hlen
      simp at hlen
    obtain ⟨pl, c, rfl⟩ : ∃ pl cc, rest = pl ++ [cc] :=
      ⟨rest.dropLast, rest.getLast hne, (List.dropLast_append_getLast hne).symm⟩
    rw [decode_concat]
    cases hck : checksum_ok ⟨a, b⟩ pl c with
    | false => simp
    | true =>
      exfalso
      apply hx
      have heq : List.foldl Nat.xor (Nat.xor a b) pl = c := by
        simpa [checksum_ok] using hck
      simp only [List.foldl_cons]
      rw [foldl_xor_concat, nxor_zero, heq]
      exact nxor_self c

/-! ## Claim C6 -/

/-- Counterexample for claim C6: an input of exactly two bytes is too
short to contain a header and a checksum, yet decoding it fails with an
uncaught `IndexError` from `payload[-1]` (`reader.py` line 83), not with
`CorruptedPacketException`. -/
theorem c6_two_byte_counterexample :
    expect_packet_pure [0, 0] = .error .indexError ∧
      PyErr.indexError ≠ PyErr.corruptedPacket :=
  ⟨rfl, by decide⟩

/-- Claim C6, amended: an input of fewer than two bytes makes the header
unpack raise `struct.error`, which `_expect_packet` converts to
`CorruptedPacketException`; an input of exactly two bytes unpacks, but the
`payload[-1]` access on the empty remainder raises `IndexError`, which is
not caught anywhere. -/
theorem c6_short_input_amended (raw : Bytes) (h : raw.length < 3) :
    expect_packet_pure raw =
      .error (if raw.length = 2 then PyErr.indexError else PyErr.corruptedPacket) := by
  rcases raw with _ | ⟨a, _ | ⟨b, _ | ⟨c, rest⟩⟩⟩
  · rfl
  · rfl
  · rfl
  · simp only [List.length_cons] at h
    omega

/-- Concrete instance of the amended claim C6. -/
theorem c6_short_input_amended_witness :
    expect_packet_pure [7] =
      .error (if ([7] : Bytes).length = 2 then PyErr.indexError
        else PyErr.corruptedPacket) :=
  c6_short_input_amended [7] (by decide)

/-! ## Claim C7 -/

/-- Counterexample for claim C7: the frame `[0x00, 0x05, 0x05]` carries a
length field of 5 but zero payload bytes, and its checksum is consistent,
so decode returns a packet instead of failing with
`CorruptedPacketException`. -/
theorem c7_length_field_counterexample :
    expect_packet_pure [0, 5, 5] = .ok (⟨0, 5⟩, []) ∧ (5 : Nat) ≠ 0 :=
  ⟨rfl, by decide⟩

/-- Claim C7, amended: decode verifies only the checksum, which covers the
length field byte; it never compares the length field against the number
of payload bytes actually present, so a frame whose checksum is consistent
decodes successfully even when the length field disagrees with the
payload byte count. -/
theorem c7_decode_checksum_only (i l : Nat) (payload : Bytes) (c : Nat) :
    expect_packet_pure (i :: l :: (payload ++ [c])) =
      if checksum_ok ⟨i, l⟩ payload c then .ok (⟨i, l⟩, payload)
      else .error .corruptedPacket :=
  decode_concat i l payload c

/-! ## Claim C8 -/

/-- Claim C8: for every packet id and every valid payload (each element a
byte, at most 255 of them as the length field is one byte), decoding the
frame produced by encoding yields the original id, a length field equal
to the payload byte count, and the original payload. -/
theorem c8_round_trip (pid : PacketId) (payload : Bytes)
    (hlen : payload.length ≤ 255) (hbytes : ∀ x ∈ payload, x < 256) :
    expect_packet_pure (encode_frame pid.value payload) =
      .ok (⟨pid.value, payload.length⟩, payload) := by
  rw [encode_frame, decode_concat]
  simp [checksum_ok, packet_checksum]

/-- Concrete instance of claim C8. -/
theorem c8_round_trip_witness :
    expect_packet_pure (encode_frame (PacketId.GET_STATUS).value [1, 2, 3]) =
      .ok (⟨(PacketId.GET_STATUS).value, 3⟩, [1, 2, 3]) :=
  c8_round_trip PacketId.GET_STATUS [1, 2, 3] (by decide) (by decide)

/-! ## Claim C9 -/

/-- Claim C9: flipping any single bit of any byte of an encoded frame
(header, payload or checksum byte alike) makes decode fail with
`CorruptedPacketException`: the total XOR of an encoded frame is zero, a
single bit flip makes it nonzero, and a nonzero total XOR is exactly a
checksum mismatch. -/
theorem c9_bit_flip_detected (pid : PacketId) (payload : Bytes)
    (hlen : payload.length ≤ 255) (hbytes : ∀ x ∈ payload, x < 256)
    (i b : Nat) (hi : i < (encode_frame pid.value payload).length) (hb : b < 8) :
    expect_packet_pure ((encode_frame pid.value payload).set i
        (Nat.xor ((encode_frame pid.value payload).getD i 0) (2 ^ b))) =
      .error .corruptedPacket := by
  apply decode_of_xor_ne_zero
  · rw [List.length_set]
    simp only [encode_frame, List.length_cons, List.length_append,
      List.length_singleton]
    omega
  · rw [foldl_xor_set _ i hi, encode_frame_xor_zero, nxor_zero]
    positivity

/-- Concrete instance of claim C9: flipping the lowest bit of the first
payload byte of the encoded GET_STATUS frame with payload `[1]`. -/
theorem c9_bit_flip_detected_witness :
    expect_packet_pure ((encode_frame (PacketId.GET_STATUS).value [1]).set 2
        (Nat.xor ((encode_frame (PacketId.GET_STATUS).value [1]).getD 2 0)
          (2 ^ 0))) =
      .error .corruptedPacket :=
  c9_bit_flip_detected PacketId.GET_STATUS [1] (by decide) (by decide) 2 0
    (by decide) (by decide)

/-! ## Helper lemmas about the reset monitor and the retry loops -/

/-- With a buffered byte count other than 5, `_check_atr` is a no-op. -/
theorem check_atr_ne5 (w : Nat) (reads : List ReadRes) (ws : List Bytes)
    (hw : w ≠ 5) : check_atr ⟨w, reads, ws⟩ = (.ok (), ⟨w, reads, ws⟩) := by
  simp [check_atr, hw]

/-- With 5 buffered bytes and a drain that decodes, `_check_atr` raises
`ResetException`. -/
theorem check_atr_drain_ok (bs : Bytes) (rest : List ReadRes) (ws : List Bytes)
    (p : PacketHead) (pl : Bytes) (hdec : expect_packet_pure bs = .ok (p, pl)) :
    check_atr ⟨5, .chunk bs :: rest, ws⟩ =
      (.error .resetException, ⟨5, rest, ws⟩) := by
  simp [check_atr, expect_packet, portRead, hdec]

/-- With 5 buffered bytes and a drain that times out, `_check_atr` raises
`ReaderError`. -/
theorem check_atr_drain_timeout (rest : List ReadRes) (ws : List Bytes) :
    check_atr ⟨5, .timeout :: rest, ws⟩ =
      (.error .readerError, ⟨5, rest, ws⟩) := by
  simp [check_atr, expect_packet, portRead]

/-- An exception from `_check_atr` propagates out of
`_transceive_with_retry` before any transmission. -/
theorem transceive_atr_err (pid : PacketId) (payload : Bytes) (n : Nat)
    (s s1 : PortState) (e : PyErr) (h : check_atr s = (.error e, s1)) :
    transceive_with_retry pid payload n s = (.error e, s1) := by
  simp [transceive_with_retry, h]

/-- A tone list whose frequencies and durations fit in 16 bits packs
without error. -/
theorem build_beep_payload_ok (tones : List (Nat × Nat))
    (h : ∀ t ∈ tones, t.1 < 65536 ∧ t.2 < 65536) :
    ∃ pl, build_beep_payload tones = .ok pl := by
  induction tones with
  | nil => exact ⟨[], rfl⟩
  | cons t ts ih =>
    obtain ⟨pl, hpl⟩ := ih (fun u hu => h u (List.mem_cons_of_mem t hu))
    have ht := h t (List.mem_cons_self t ts)
    refine ⟨[t.1 % 256, t.1 / 256, t.2 % 256, t.2 / 256] ++ pl, ?_⟩
    simp [build_beep_payload, pack_tone, ht, hpl]

/-- An exception from `transceive` propagates out of `set_leds`. -/
theorem set_leds_err (leds : Nat) (s s1 : PortState) (e : PyErr)
    (hleds : leds ≤ 255)
    (h : transceive_with_retry PacketId.SET_LED [leds] RESPONSE_ATR s =
      (.error e, s1)) :
    set_leds leds s = (.error e, s1) := by
  simp [set_leds, hleds, h]

/-- An exception from `transceive` that does not depend on the payload
propagates out of `beep` when validation and tone packing succeed. -/
theorem beep_err (tones : List (Nat × Nat)) (rep : Bool) (s s1 : PortState)
    (e : PyErr) (htones : tones.length ≤ 8)
    (hvals : ∀ t ∈ tones, t.1 < 65536 ∧ t.2 < 65536)
    (h : ∀ payload, transceive_with_retry PacketId.BEEP payload RESPONSE_ATR s =
      (.error e, s1)) :
    beep tones rep s = (.error e, s1) := by
  obtain ⟨pl, hpl⟩ := build_beep_payload_ok tones hvals
  have hlt : ¬ tones.length > MAX_BEEP_LENGTH := by
    simp [MAX_BEEP_LENGTH]
    omega
  simp [beep, hlt, hpl, h]

/-- An exception from `transceive` propagates out of `RFID_send` when
validation succeeds. -/
theorem RFID_send_err (payload : Bytes) (s s1 : PortState) (e : PyErr)
    (hlen : payload.length ≤ 128)
    (h : transceive_with_retry PacketId.RFID_SEND payload
      (payload.length + TRANSMIT_OVERHEAD) s = (.error e, s1)) :
    RFID_send payload s = (.error e, s1) := by
  have hlt : ¬ payload.length > MAX_RFID_PAYLOAD := by
    simp [MAX_RFID_PAYLOAD]
    omega
  simp [RFID_send, hlt, h]

/-- One inner recovery iteration on a read that fails to decode: the
RX_ERROR signal is written and the iteration falls through. -/
theorem inner_iter_bad (n w : Nat) (r : ReadRes) (rest : List ReadRes)
    (ws : List Bytes) (h : BadRead r) :
    inner_iter n ⟨w, r :: rest, ws⟩ =
      (.fall, ⟨w, rest, ws ++ [encode_frame (PacketId.RX_ERROR).value []]⟩) := by
  rcases h with rfl | ⟨bs, rfl, hbs⟩
  · simp [inner_iter, transmit_packet, portWrite, expect_packet, portRead,
      isCaught]
  · simp [inner_iter, transmit_packet, portWrite, expect_packet, portRead,
      isCaught, hbs]

/-- One outer iteration on three reads that all fail to decode: the
command frame and two RX_ERROR signals are written, then the iteration
falls through with the original payload. -/
theorem outer_iter_bad (pid : PacketId) (payload : Bytes) (n w : Nat)
    (r1 r2 r3 : ReadRes) (rest : List ReadRes) (ws : List Bytes)
    (hlen : payload.length ≤ 255)
    (h1 : BadRead r1) (h2 : BadRead r2) (h3 : BadRead r3) :
    outer_iter pid payload n ⟨w, r1 :: r2 :: r3 :: rest, ws⟩ =
      (.next payload, ⟨w, rest,
        ws ++ [encode_frame pid.value payload,
          encode_frame (PacketId.RX_ERROR).value [],
          encode_frame (PacketId.RX_ERROR).value []]⟩) := by
  have hi2 := inner_iter_bad n w r2 (r3 :: rest)
    (ws ++ [encode_frame pid.value payload]) h2
  have hi3 := inner_iter_bad n w r3 rest
    (ws ++ [encode_frame pid.value payload,
      encode_frame (PacketId.RX_ERROR).value []]) h3
  rcases h1 with rfl | ⟨bs, rfl, hbs⟩
  · simp [outer_iter, transmit_packet, hlen, portWrite, expect_packet, portRead,
      isCaught, inner_loop, hi2, hi3, List.append_assoc]
  · simp [outer_iter, transmit_packet, hlen, portWrite, expect_packet, portRead,
      isCaught, hbs, inner_loop, hi2, hi3, List.append_assoc]

/-! ## Claim C1 -/

/-- Claim C1 evaluated on the code: the device answers the first RX_ERROR
retransmission with its own RX_ERROR frame `[0xFF, 0x00, 0xFF]`, yet
`transceive` returns that frame as a successful result instead of raising
`ReaderError`, because the comparison at `reader.py` line 113 tests an
`int` against a plain `Enum` member and is therefore always false. -/
theorem c1_rx_answer_returned :
    transceive_with_retry PacketId.GET_STATUS [] 5
        ⟨0, [.timeout, .chunk [255, 0, 255]], []⟩ =
      (.ok (⟨255, 0⟩, []), ⟨0, [], [[8, 0, 8], [255, 0, 255]]⟩) := rfl

/-! ## Claim C2 -/

/-- Claim C2 evaluated on the code: the first response to the command
decodes to an RX_ERROR frame, yet `transceive` returns it as the result
of the transaction after a single transmission, instead of retransmitting
the command, because the comparison at `reader.py` line 102 tests an
`int` against a plain `Enum` member and is therefore always false. -/
theorem c2_rx_error_response_returned :
    transceive_with_retry PacketId.GET_STATUS [] 5
        ⟨0, [.chunk [255, 0, 255]], []⟩ =
      (.ok (⟨255, 0⟩, []), ⟨0, [], [[8, 0, 8]]⟩) := rfl

/-! ## Claim C3 -/

/-- Claim C3 evaluated on the code: `beep` receives a decodable response
whose id (GET_STATUS) is not ACK and raises `CorruptedPacketException` to
the caller (`reader.py` line 168), although the parallel branches in
`set_leds` and `RFID_send` raise `ReaderError` under the same comment. -/
theorem c3_beep_corrupted_packet_escapes :
    beep [] false ⟨0, [.chunk [8, 0, 8]], []⟩ =
      (.error .corruptedPacket, ⟨0, [], [[11, 1, 0, 10]]⟩) := rfl

/-! ## Claim C4 -/

/-- Counterexample for claim C4: 5 bytes are buffered and reading them
succeeds within the timeout, but the drained bytes fail the checksum, so
the call raises `CorruptedPacketException` (uncaught in `_check_atr`)
rather than `ResetException`. -/
theorem c4_drain_corrupted_counterexample :
    set_leds 1 ⟨5, [.chunk [0, 0, 0, 0, 1]], []⟩ =
        (.error .corruptedPacket, ⟨5, [], []⟩) ∧
      PyErr.corruptedPacket ≠ PyErr.resetException :=
  ⟨rfl, by decide⟩

/-- Claim C4, amended: when exactly 5 bytes are buffered and the drained
bytes decode successfully, every command raises `ResetException` with no
command packet transmitted; when the drain read times out, `ReaderError`
is raised; when the drained bytes fail to decode, the resulting
`CorruptedPacketException` propagates to the caller instead; with any
buffered count other than 5 the reset check is a no-op and the command
proceeds normally. -/
theorem c4_reset_detection_amended (pid : PacketId) (payload : Bytes)
    (n : Nat) (leds : Nat) (hleds : leds ≤ 255)
    (tones : List (Nat × Nat)) (htones : tones.length ≤ 8)
    (hvals : ∀ t ∈ tones, t.1 < 65536 ∧ t.2 < 65536) (rep : Bool)
    (rp : Bytes) (hrp : rp.length ≤ 128)
    (bs : Bytes) (p : PacketHead) (pl : Bytes)
    (hdec : expect_packet_pure bs = .ok (p, pl))
    (rest : List ReadRes) (w : Nat) (hw : w ≠ 5) (reads : List ReadRes)
    (ws : List Bytes) :
    transceive_with_retry pid payload n ⟨5, .chunk bs :: rest, []⟩ =
        (.error .resetException, ⟨5, rest, []⟩) ∧
      transceive_with_retry pid payload n ⟨5, .timeout :: rest, []⟩ =
        (.error .readerError, ⟨5, rest, []⟩) ∧
      check_atr ⟨w, reads, ws⟩ = (.ok (), ⟨w, reads, ws⟩) ∧
      set_leds leds ⟨5, .chunk bs :: rest, []⟩ =
        (.error .resetException, ⟨5, rest, []⟩) ∧
      beep tones rep ⟨5, .chunk bs :: rest, []⟩ =
        (.error .resetException, ⟨5, rest, []⟩) ∧
      RFID_send rp ⟨5, .chunk bs :: rest, []⟩ =
        (.error .resetException, ⟨5, rest, []⟩) := by
  have hdrain := check_atr_drain_ok bs rest [] p pl hdec
  have htime := check_atr_drain_timeout rest []
  refine ⟨transceive_atr_err _ _ _ _ _ _ hdrain,
    transceive_atr_err _ _ _ _ _ _ htime,
    check_atr_ne5 w reads ws hw,
    set_leds_err _ _ _ _ hleds (transceive_atr_err _ _ _ _ _ _ hdrain),
    beep_err _ _ _ _ _ htones hvals
      (fun payload => transceive_atr_err _ _ _ _ _ _ hdrain),
    RFID_send_err _ _ _ _ hrp (transceive_atr_err _ _ _ _ _ _ hdrain)⟩

/-- Concrete instance of the amended claim C4, with the checksum-valid
reset notification `[1, 0, 1]` buffered. -/
theorem c4_reset_detection_amended_witness :
    transceive_with_retry PacketId.GET_STATUS [] 5 ⟨5, [.chunk [1, 0, 1]], []⟩ =
        (.error .resetException, ⟨5, [], []⟩) ∧
      transceive_with_retry PacketId.GET_STATUS [] 5 ⟨5, [.timeout], []⟩ =
        (.error .readerError, ⟨5, [], []⟩) ∧
      check_atr ⟨0, [], []⟩ = (.ok (), ⟨0, [], []⟩) ∧
      set_leds 1 ⟨5, [.chunk [1, 0, 1]], []⟩ =
        (.error .resetException, ⟨5, [], []⟩) ∧
      beep [] false ⟨5, [.chunk [1, 0, 1]], []⟩ =
        (.error .resetException, ⟨5, [], []⟩) ∧
      RFID_send [] ⟨5, [.chunk [1, 0, 1]], []⟩ =
        (.error .resetException, ⟨5, [], []⟩) :=
  c4_reset_detection_amended PacketId.GET_STATUS [] 5 1 (by decide)
    [] (by decide) (by decide) false [] (by decide)
    [1, 0, 1] ⟨1, 0⟩ [] rfl [] 0 (by decide) [] []

/-! ## Claim C5 -/

/-- Claim C5: when the reset check passes and all six receive attempts
fail to decode (timeout or corrupted), `transceive` raises `ReaderError`
and the write trace is exactly the command frame, two RX_ERROR signals,
the command frame again, and two more RX_ERROR signals: 2 command
transmissions and 4 RX_ERROR transmissions, in that order. -/
theorem c5_exact_retry_counts (pid : PacketId) (payload : Bytes) (n w : Nat)
    (r1 r2 r3 r4 r5 r6 : ReadRes) (rest : List ReadRes)
    (hw : w ≠ 5) (hlen : payload.length ≤ 255)
    (h1 : BadRead r1) (h2 : BadRead r2) (h3 : BadRead r3)
    (h4 : BadRead r4) (h5 : BadRead r5) (h6 : BadRead r6) :
    transceive_with_retry pid payload n
        ⟨w, r1 :: r2 :: r3 :: r4 :: r5 :: r6 :: rest, []⟩ =
      (.error .readerError, ⟨w, rest,
        [encode_frame pid.value payload,
          encode_frame (PacketId.RX_ERROR).value [],
          encode_frame (PacketId.RX_ERROR).value [],
          encode_frame pid.value payload,
          encode_frame (PacketId.RX_ERROR).value [],
          encode_frame (PacketId.RX_ERROR).value []]⟩) := by
  have hc := check_atr_ne5 w (r1 :: r2 :: r3 :: r4 :: r5 :: r6 :: rest) [] hw
  have ho1 := outer_iter_bad pid payload n w r1 r2 r3 (r4 :: r5 :: r6 :: rest)
    [] hlen h1 h2 h3
  have ho2 := outer_iter_bad pid payload n w r4 r5 r6 rest
    [encode_frame pid.value payload,
      encode_frame (PacketId.RX_ERROR).value [],
      encode_frame (PacketId.RX_ERROR).value []] hlen h4 h5 h6
  simp only [List.nil_append] at ho1
  simp [transceive_with_retry, hc, ho1, ho2]

/-- Concrete instance of claim C5: six straight read timeouts. -/
theorem c5_exact_retry_counts_witness :
    transceive_with_retry PacketId.GET_STATUS [] 5
        ⟨0, [.timeout, .timeout, .timeout, .timeout, .timeout, .timeout], []⟩ =
      (.error .readerError, ⟨0, [],
        [encode_frame (PacketId.GET_STATUS).value [],
          encode_frame (PacketId.RX_ERROR).value [],
          encode_frame (PacketId.RX_ERROR).value [],
          encode_frame (PacketId.GET_STATUS).value [],
          encode_frame (PacketId.RX_ERROR).value [],
          encode_frame (PacketId.RX_ERROR).value []]⟩) :=
  c5_exact_retry_counts PacketId.GET_STATUS [] 5 0
    .timeout .timeout .timeout .timeout .timeout .timeout []
    (by decide) (by decide)
    (Or.inl rfl) (Or.inl rfl) (Or.inl rfl) (Or.inl rfl) (Or.inl rfl)
    (Or.inl rfl)

/-! ## Claim C10 -/

/-- Claim C10: `beep` with more than 8 tones and `RFID_send` with a
payload longer than 128 bytes raise `ValueError` with the port state
untouched: nothing is written, no read is consumed, and the buffered
count is never inspected before the validation. -/
theorem c10_validation_before_io (tones : List (Nat × Nat)) (rep : Bool)
    (pl : Bytes) (s : PortState) (h1 : 8 < tones.length)
    (h2 : 128 < pl.length) :
    beep tones rep s = (.error .valueError, s) ∧
      RFID_send pl s = (.error .valueError, s) := by
  constructor
  · simp [beep, MAX_BEEP_LENGTH, h1]
  · simp [RFID_send, MAX_RFID_PAYLOAD, h2]

/-- Concrete instance of claim C10: 9 tones and a 129-byte payload. -/
theorem c10_validation_before_io_witness :
    beep (List.replicate 9 (1, 1)) false ⟨0, [], []⟩ =
        (.error .valueError, ⟨0, [], []⟩) ∧
      RFID_send (List.replicate 129 0) ⟨0, [], []⟩ =
        (.error .valueError, ⟨0, [], []⟩) :=
  c10_validation_before_io (List.replicate 9 (1, 1)) false
    (List.replicate 129 0) ⟨0, [], []⟩ (by simp) (by simp)
